import Mathlib

/-!
Verification of the bowman-tracker client data pipeline.

The definitions below are a shallow embedding of the JavaScript source:
`fetchAPI` and its retry loop, the response cache and in-flight request
coalescing, the candlestick synthesis in `updateCandlestickChart`, the
chart capability fallback state machine (`initChart`,
`updateCandlestickChart`, `renderFallbackChart`), and the service worker
fetch handler (`sw.js`).  Prices and other JS numbers that the claims
treat arithmetically are modelled as rationals; epoch-millisecond
timestamps as integers; `Math.floor(x / 1000)` as `Int.fdiv x 1000`.
-/

/- ======================================================================
   fetchAPI retry loop (src/unnamed/part_000, lines 1009-1070)
   ====================================================================== -/

/-- Classification of a single network attempt inside the retry loop of
`fetchAPI`: the fetch resolves with an ok response (payload opaque,
modelled as `Nat`), resolves with a non-ok HTTP status, rejects with a
network failure, or rejects with the timeout error thrown by
`fetchWithTimeout` on abort. -/
inductive AttemptOutcome where
  | httpOk (payload : Nat)
  | httpError (status : Nat)
  | networkFailure
  | timeout
deriving DecidableEq

/-- Error value observed by a caller of `fetchAPI` when an attempt fails:
the thrown `HTTP <status>` error, a network failure, or the
`Request timed out` error. -/
inductive FetchError where
  | http (status : Nat)
  | network
  | timedOut
deriving DecidableEq

/-- MAX_RETRIES constant (line 990). -/
def MAX_RETRIES : Nat := 2

/-- Inter-attempt backoff delay `500 * Math.pow(2, attempt)` in
milliseconds (line 1054). -/
def backoffDelay (attempt : Nat) : Nat := 500 * 2 ^ attempt

/-- Error thrown inside the try block of the loop body for a failing
attempt: both the 4xx and the 5xx branch throw `HTTP <status>`
(lines 1034-1039), a rejected fetch propagates its error. Only called on
failing outcomes; the `httpOk` case is never consulted. -/
def attemptError : AttemptOutcome → FetchError
  | .httpOk _ => .network
  | .httpError s => .http s
  | .networkFailure => .network
  | .timeout => .timedOut

/-- Settled outcome of the request promise: the payload returned, or the
error thrown after the loop ends. -/
inductive FetchResult where
  | ok (payload : Nat)
  | error (e : FetchError)
deriving DecidableEq

/-- Result of running the retry loop: the value returned or error thrown,
the number of attempts actually performed, and the list of inter-attempt
delays awaited (in order). -/
structure LoopResult where
  result : FetchResult
  attemptsUsed : Nat
  delays : List Nat
deriving DecidableEq

/-- The retry loop of `fetchAPI` (lines 1030-1060), from loop counter
`attempt` with `remaining` iterations allowed.  `outcome n` is the result
of the n-th network attempt.  The JS catch block treats every thrown
error alike: it records it as `lastError` and, whenever
`attempt < retries`, waits `backoffDelay attempt` and retries — the 4xx
branch is NOT exempted, since its throw lands in the same catch.  When
`attempt = retries` the loop exits and `lastError` is thrown.  The
`remaining = 0` base case is unreachable from `fetchAPIAttempts` (the
final iteration exits through the `attempt = retries` branch). -/
def fetchAttemptsFrom (outcome : Nat → AttemptOutcome) (retries : Nat) :
    Nat → Nat → LoopResult
  | _, 0 => ⟨.error .network, 0, []⟩
  | attempt, remaining + 1 =>
    match outcome attempt with
    | .httpOk payload => ⟨.ok payload, 1, []⟩
    | o =>
      if attempt < retries then
        let rest := fetchAttemptsFrom outcome retries (attempt + 1) remaining
        ⟨rest.result, rest.attemptsUsed + 1, backoffDelay attempt :: rest.delays⟩
      else
        ⟨.error (attemptError o), 1, []⟩

/-- The whole attempt sequence issued by one `fetchAPI` request promise:
the loop runs at most `retries + 1` attempts starting from attempt 0. -/
def fetchAPIAttempts (outcome : Nat → AttemptOutcome) (retries : Nat) : LoopResult :=
  fetchAttemptsFrom outcome retries 0 (retries + 1)

/- ======================================================================
   fetchAPI cache lookup and request start (lines 1009-1025, 1063)
   ====================================================================== -/

/-- One entry of `state.cache`: the parsed payload (opaque, `Nat`) and
the `Date.now()` stamp recorded when it was stored (line 1045). -/
structure CacheEntry where
  data : Nat
  timestamp : Int
deriving DecidableEq

/-- The `state.cacheTimeout` TTL constant, 30000 ms (line 804). -/
def cacheTimeout : Int := 30000

/-- The mutable request-layer state: `state.cache` and
`state.pendingRequests`, both JS `Map`s keyed by the endpoint string,
modelled as functions (a `Map` holds at most one entry per key). -/
structure FetchState where
  cache : String → Option CacheEntry
  pending : String → Bool

/-- How the synchronous prefix of a `fetchAPI` call resolves: return the
cached payload with no network activity, await the already-pending
request promise for the key, or start a new request attempt sequence. -/
inductive FetchDecision where
  | cachedData (d : Nat)
  | joinPending
  | startRequest
deriving DecidableEq

/-- The synchronous prefix of `fetchAPI(endpoint, skipCache)`
(lines 1009-1025 and 1063): unless `skipCache`, a cache entry younger
than the TTL is returned as is; an entry at or past the TTL is deleted.
Then, if a pending request exists for the key it is joined; otherwise a
new request is started and registered in the pending map.  All of this
runs in one event-loop turn, so it is a single atomic step on the
state. -/
def fetchAPILookup (st : FetchState) (key : String) (skipCache : Bool) (now : Int) :
    FetchDecision × FetchState :=
  match if skipCache then none else st.cache key with
  | some cached =>
    if now - cached.timestamp < cacheTimeout then
      (.cachedData cached.data, st)
    else
      let st1 : FetchState := ⟨fun k => if k = key then none else st.cache k, st.pending⟩
      if st1.pending key then (.joinPending, st1)
      else (.startRequest, ⟨st1.cache, fun k => if k = key then true else st1.pending k⟩)
  | none =>
    if st.pending key then (.joinPending, st)
    else (.startRequest, ⟨st.cache, fun k => if k = key then true else st.pending k⟩)

/- ======================================================================
   Service worker fetch handler (src/frontend/sw.js, lines 48-102)
   ====================================================================== -/

/-- Body of the substitute response synthesized for API requests made
while offline: `JSON.stringify({ success: false, error: 'You are offline' })`
(sw.js lines 61-64), modelled structurally. -/
structure OfflineBody where
  success : Bool
  error : String
deriving DecidableEq

/-- A network or cache response, as far as the handler observes it. -/
structure NetResponse where
  status : Nat
  body : String
deriving DecidableEq

/-- What the fetch event handler does with an intercepted request. -/
inductive SWFetchOutcome where
  | untouched
  | networkResponse (r : NetResponse)
  | offlineFallback (b : OfflineBody)
  | cachedResponse (r : NetResponse)
  | staticNetwork (r : NetResponse)
  | staticNetworkFailure
deriving DecidableEq

/-- The upstream data-service path prefix tested by the handler
(sw.js line 56). -/
def apiPrefix : String := "/api/"

/-- The test `url.pathname.startsWith('/api/')` (sw.js line 56), as a
prefix test on the character sequences of the two strings. -/
def isApiPath (pathname : String) : Bool :=
  apiPrefix.data.isPrefixOf pathname.data

/-- The service worker fetch handler (sw.js lines 48-102).  `net` is the
result of `fetch(request)` (`none` = network failure) and `cached` the
result of `caches.match(request)`.  Non-GET requests are not responded
to; API-path requests always go to the network, with the offline body
synthesized on failure; static assets are served cache-first, falling
back to the network (background revalidation is asynchronous and does
not affect the response). -/
def swHandleFetch (method pathname : String) (net : Option NetResponse)
    (cached : Option NetResponse) : SWFetchOutcome :=
  if method ≠ "GET" then .untouched
  else if isApiPath pathname then
    match net with
    | some r => .networkResponse r
    | none => .offlineFallback { success := false, error := "You are offline" }
  else
    match cached with
    | some c => .cachedResponse c
    | none =>
      match net with
      | some r => .staticNetwork r
      | none => .staticNetworkFailure

/- ======================================================================
   In-flight request coalescing (lines 1022-1025, 1027, 1063-1069)
   ====================================================================== -/

/-- State of the coalescing machinery for one fixed endpoint key, over
the single-threaded event loop.  `pendingRequest` is the
`state.pendingRequests` entry for the key (the id of the in-flight
request promise, if any); `issued` records every request promise whose
attempt sequence was started; `callers` records which request promise
each `fetchAPI` caller ended up awaiting. -/
structure CoalesceState where
  pendingRequest : Option Nat
  nextId : Nat
  issued : List Nat
  callers : List (Nat × Nat)
deriving DecidableEq

/-- Initial state: no cache entry for the key and no pending request. -/
def coalesceInit : CoalesceState := ⟨none, 0, [], []⟩

/-- One `fetchAPI` call for the key arriving while no fresh cache entry
exists (lines 1022-1025 and 1027-1063 run synchronously in a single
event-loop turn): if a pending request exists the caller awaits that
same promise; otherwise a new request promise is created — its attempt
sequence is issued — and registered in the pending map before control is
yielded. -/
def coalesceCall (c : Nat) (st : CoalesceState) : CoalesceState :=
  match st.pendingRequest with
  | some r => { st with callers := (c, r) :: st.callers }
  | none =>
      { pendingRequest := some st.nextId, nextId := st.nextId + 1,
        issued := st.nextId :: st.issued, callers := (c, st.nextId) :: st.callers }

/-- The request promise settles: the `finally` block (line 1068) deletes
the pending-map entry. -/
def coalesceSettle (st : CoalesceState) : CoalesceState :=
  { st with pendingRequest := none }

/-- A burst of concurrent `fetchAPI` calls for the key, processed in
arrival order by the event loop. -/
def runCalls (cs : List Nat) (st : CoalesceState) : CoalesceState :=
  cs.foldl (fun s c => coalesceCall c s) st

/- ======================================================================
   Candle synthesis in updateCandlestickChart (lines 1441-1525)
   ====================================================================== -/

/-- One element of the `data.data_points` array of a chart payload:
`x` the sale timestamp in epoch milliseconds, `y` the price, `variant`
the category label, `date` the YYYY-MM-DD day key. -/
structure DataPoint where
  x : Int
  y : ℚ
  variant : String
  date : String
deriving DecidableEq

/-- A synthesized candlestick record (lines 1479-1485). -/
structure Candle where
  time : Int
  «open» : ℚ
  high : ℚ
  low : ℚ
  close : ℚ
deriving DecidableEq

/-- Comparator of the sort `[...points].sort((a, b) => a.x - b.x)`
(lines 1468 and 1508): ascending by original timestamp. -/
def byTimestamp (a b : DataPoint) : Prop := a.x ≤ b.x

instance : DecidableRel byTimestamp := fun a b => Int.decLe a.x b.x

instance : IsTotal DataPoint byTimestamp := ⟨fun a b => Int.le_total a.x b.x⟩

instance : IsTrans DataPoint byTimestamp := ⟨fun _ _ _ h h2 => Int.le_trans h h2⟩

/-- The JS `Array.prototype.sort` by `a.x - b.x`: a stable sort
ascending by timestamp.  Stable sorting under a total preorder is
unique, so insertion sort is an exact model. -/
def sortByX (pts : List DataPoint) : List DataPoint :=
  pts.insertionSort byTimestamp

/-- Variance fraction used in overlay ("all") mode, `price * 0.003`
(line 1477). -/
def overlayVariance : ℚ := 3 / 1000

/-- Variance fraction used in single-variant mode, `price * 0.005`
(line 1516). -/
def singleVariance : ℚ := 5 / 1000

/-- Synthesis of one candle from the point at 0-based `index` of a
sorted category group (lines 1473-1486 and 1512-1524):
`time = Math.floor(point.x / 1000) + index * 3600 + offsetSeconds`,
`variance = price * varFrac`, and the degenerate OHLC values
`open = low = price - variance`, `close = high = price + variance`. -/
def mkCandle (varFrac : ℚ) (offsetSeconds : Int) (index : Nat) (p : DataPoint) : Candle :=
  let price := p.y
  let actualTime := p.x.fdiv 1000 + (index : Int) * 3600 + offsetSeconds
  let variance := price * varFrac
  { time := actualTime, «open» := price - variance, high := price + variance,
    low := price - variance, close := price + variance }

/-- The `sorted.map((point, index) => ...)` loop building `candleData`,
carrying the running 0-based index. -/
def candleDataFrom (varFrac : ℚ) (offsetSeconds : Int) : Nat → List DataPoint → List Candle
  | _, [] => []
  | i, p :: ps => mkCandle varFrac offsetSeconds i p :: candleDataFrom varFrac offsetSeconds (i + 1) ps

/-- The `candleData` array built from a sorted category group. -/
def candleData (varFrac : ℚ) (offsetSeconds : Int) (sorted : List DataPoint) : List Candle :=
  candleDataFrom varFrac offsetSeconds 0 sorted

/-- The keys of the `variantGroups` object (lines 1443-1447): the fixed,
closed set of category labels. -/
def variantKeys : List String := ["jumbo", "breakers_delight", "hobby"]

/-- The `variantOffsets` constant `{ jumbo: 0, breakers_delight: 300,
hobby: 600 }` (line 1458); only ever applied to keys of
`variantKeys`. -/
def variantOffset : String → Int
  | "breakers_delight" => 300
  | "hobby" => 600
  | _ => 0

/-- The grouping step (lines 1449-1454): `variantGroups[point.variant]`
collects, in input order, the points whose label matches.  A point whose
label is neither an own key of `variantGroups` nor an inherited
`Object.prototype` property name is skipped (`variantGroups[v]` is
undefined, hence falsy); for the inherited names the loop instead throws
— see `groupingThrows`.  `groupPoints` describes the group contents when
the loop completes without throwing. -/
def groupPoints (pts : List DataPoint) (key : String) : List DataPoint :=
  pts.filter (fun p => p.variant == key)

/-- Property names a plain object literal inherits from
`Object.prototype` on the web platform: for `v` among these,
`variantGroups[v]` at line 1451 is a truthy inherited value even though
`v` is not an own key, so `variantGroups[v].push(point)` throws a
TypeError instead of skipping the point. -/
def objectPrototypeProps : List String :=
  ["constructor", "hasOwnProperty", "isPrototypeOf", "propertyIsEnumerable",
   "toLocaleString", "toString", "valueOf", "__proto__", "__defineGetter__",
   "__defineSetter__", "__lookupGetter__", "__lookupSetter__"]

/-- Whether the grouping forEach (lines 1449-1454) throws: it does as
soon as it meets a point whose label is not an own key of
`variantGroups` but names an inherited `Object.prototype` property. -/
def groupingThrows (pts : List DataPoint) : Bool :=
  pts.any (fun p =>
    !variantKeys.contains p.variant && objectPrototypeProps.contains p.variant)

/-- Overlay ("all") mode output (lines 1460-1501): one
`(variantKey, candleData)` pair per category, in `variantKeys` order,
skipping categories with zero points (`if (points.length === 0)
return;`, line 1462); each group is sorted by original timestamp and
turned into candles with the overlay variance and the category
offset. -/
def overlaySeries (pts : List DataPoint) : List (String × List Candle) :=
  variantKeys.filterMap (fun key =>
    let points := groupPoints pts key
    if points.length = 0 then none
    else some (key, candleData overlayVariance (variantOffset key) (sortByX points)))

/-- Single-variant mode output (lines 1506-1525): all points sorted by
original timestamp, single-mode variance, no category offset. -/
def singleSeriesData (pts : List DataPoint) : List Candle :=
  candleData singleVariance 0 (sortByX pts)

/- ======================================================================
   Chart capability manager (lines 1197-1199, 1326-1413, 1415-1548)
   ====================================================================== -/

/-- A call on the injected charting capability or a handle obtained from
it: `LightweightCharts.createChart`, `chart.addCandlestickSeries`,
`series.setData`, `chart.removeSeries`,
`chart.timeScale().fitContent()`. -/
inductive ChartCall where
  | createChart
  | addSeries
  | setData
  | removeSeries
  | fitContent
deriving DecidableEq

/-- The chart-related fields of the global `state` object:
`state.chartFallbackMode` (line 800), whether `state.chart` is non-null,
and `state.chartSeries.length`. -/
structure ChartState where
  chartFallbackMode : Bool
  hasChart : Bool
  chartSeriesCount : Nat
deriving DecidableEq

/-- State effect of `renderFallbackChart` (line 1238): it sets
`state.chartFallbackMode = true`; it performs no chart-handle calls
(it only writes DOM tables). -/
def renderFallbackMode (st : ChartState) : ChartState :=
  { st with chartFallbackMode := true }

/-- Result of `initChart`: updated state, chart-capability calls made,
and the boolean the function returns. -/
structure InitResult where
  st : ChartState
  calls : List ChartCall
  ok : Bool
deriving DecidableEq

/-- The `initChart` function (lines 1326-1413).  `libAvailable` is the
probe `isChartLibraryAvailable()` (line 1197: the injected capability is
defined); `createThrows` says whether `LightweightCharts.createChart`
throws.  If the capability is absent the function sets
`state.chartFallbackMode = true` and returns false without touching any
chart handle.  Otherwise any existing chart is discarded and
`createChart` is attempted; an exception is caught, setting fallback
mode; on success fallback mode is cleared. -/
def initChart (libAvailable createThrows : Bool) (st : ChartState) : InitResult :=
  if libAvailable = false then
    ⟨{ st with chartFallbackMode := true }, [], false⟩
  else
    let st0 := if st.hasChart then { st with hasChart := false, chartSeriesCount := 0 } else st
    if createThrows then
      ⟨{ st0 with chartFallbackMode := true }, [ChartCall.createChart], false⟩
    else
      ⟨{ st0 with hasChart := true, chartFallbackMode := false }, [ChartCall.createChart], true⟩

/-- Non-swallowed chart-handle calls of the overlay try block after the
`removeSeries` sweep (lines 1460-1503): `addSeries` then `setData` per
non-empty category group, then `fitContent`.  The sweep's own
`removeSeries` calls are each wrapped in their own try/catch at
lines 1434-1436, so a throw there cannot abort the update. -/
def overlayMainCalls (groups : Nat) : List ChartCall :=
  (List.replicate groups [ChartCall.addSeries, ChartCall.setData]).flatten ++
    [ChartCall.fitContent]

/-- Non-swallowed chart-handle calls of the single-variant try block
after the sweep (lines 1506-1542): one `addSeries` and, only when the
candle data is non-empty, `setData` and `fitContent`. -/
def singleMainCalls (hasData : Bool) : List ChartCall :=
  [ChartCall.addSeries] ++
    (if hasData then [ChartCall.setData, ChartCall.fitContent] else [])

/-- Result of one `updateCandlestickChart` call: updated state, the
chart-handle calls performed, and whether the data was routed to the
fallback summary path. -/
structure UpdateResult where
  st : ChartState
  calls : List ChartCall
  usedFallback : Bool
deriving DecidableEq

/-- The `updateCandlestickChart` function (lines 1415-1548).
`removeThrows` says whether some `removeSeries` call of the sweep
throws: each such call sits in its own try/catch (lines 1434-1436), so
the throw is swallowed and the update continues unchanged — the
parameter has no effect on the result, which models exactly that.
`failAt = some n` is the oracle for an exception in the n-th
non-swallowed chart call of the try block (`addSeries` / `setData` /
`fitContent`; the calls before it completed, the throwing call was
attempted); `failAt = none` means none of them throws.  The guard at
line 1417 routes to `renderFallbackChart` — with zero chart-handle
calls — whenever fallback mode is already set or the capability probe
fails.  If no chart instance exists, `initChart` is attempted first,
falling back on failure.  In overlay mode a point labelled with an
inherited `Object.prototype` property name makes the grouping loop
itself throw a TypeError (line 1452) before any series call.  Any
exception escaping the try block is caught at lines 1544-1547 (never
re-thrown — the function is total) and handled by `renderFallbackChart`,
which latches `state.chartFallbackMode = true`.  On an overlay
series-call throw, `state.chartSeries` holds the series pushed so far
(a push follows each completed `setData`, line 1500); on a grouping or
single-variant throw no push was reached. -/
def updateCandlestickChart (libAvailable createThrows _removeThrows : Bool)
    (failAt : Option Nat) (variant : String) (pts : List DataPoint)
    (st : ChartState) : UpdateResult :=
  if st.chartFallbackMode || !libAvailable then
    ⟨renderFallbackMode st, [], true⟩
  else
    let init : InitResult :=
      if st.hasChart then ⟨st, [], true⟩ else initChart libAvailable createThrows st
    if init.ok = false then
      ⟨renderFallbackMode init.st, init.calls, true⟩
    else
      let sweep := List.replicate init.st.chartSeriesCount ChartCall.removeSeries
      let isAll := variant == "all"
      if isAll && groupingThrows pts then
        ⟨renderFallbackMode { init.st with chartSeriesCount := 0 },
          init.calls ++ sweep, true⟩
      else
        let groups := (overlaySeries pts).length
        let main := if isAll then overlayMainCalls groups
                    else singleMainCalls (!pts.isEmpty)
        match failAt with
        | some n =>
          ⟨renderFallbackMode
              { init.st with chartSeriesCount := if isAll then min groups (n / 2) else 0 },
            init.calls ++ sweep ++ main.take (n + 1), true⟩
        | none =>
          ⟨{ init.st with chartSeriesCount := if isAll then groups else 1 },
            init.calls ++ sweep ++ main, false⟩

/- ======================================================================
   renderFallbackChart summary view (lines 1233-1320)
   ====================================================================== -/

/-- One row of the fallback daily table (lines 1292-1304). -/
structure DayRow where
  date : String
  count : Nat
  dayAvg : ℚ
  dayHigh : ℚ
  dayLow : ℚ
deriving DecidableEq

/-- The fallback summary view: the overall Average / High / Low stat
cards, the total sales count, and the daily table rows. -/
structure FallbackView where
  avg : ℚ
  high : ℚ
  low : ℚ
  totalSales : Nat
  rows : List DayRow
deriving DecidableEq

/-- One step of the `data.data_points.forEach` grouping loop
(lines 1242-1249): append the price to the group of its date, creating
the group — in first-occurrence order, as JS object keys — when
absent. -/
def addToDaily (acc : List (String × List ℚ)) (date : String) (y : ℚ) :
    List (String × List ℚ) :=
  match acc with
  | [] => [(date, [y])]
  | (d, ys) :: rest =>
    if d = date then (d, ys ++ [y]) :: rest
    else (d, ys) :: addToDaily rest date y

/-- The `dailyData` grouping of raw points by date key. -/
def dailyData (pts : List DataPoint) : List (String × List ℚ) :=
  pts.foldl (fun acc p => addToDaily acc p.date p.y) []

/-- Comparator of `sort((a, b) => b.date.localeCompare(a.date))`
(line 1252): descending by date key (lexicographic on the ASCII
YYYY-MM-DD strings). -/
def byDateDesc (a b : String × List ℚ) : Prop := b.1 ≤ a.1

instance : DecidableRel byDateDesc := fun a b => decidable_of_iff (b.1 ≤ a.1) Iff.rfl

/-- JS `Math.max(...)` over a spread list.  Only applied behind
non-emptiness guards; the value at `[]` (where JS yields -Infinity) is
arbitrary. -/
def qmax : List ℚ → ℚ
  | [] => 0
  | x :: xs => xs.foldl max x

/-- JS `Math.min(...)` over a spread list; same proviso as `qmax`. -/
def qmin : List ℚ → ℚ
  | [] => 0
  | x :: xs => xs.foldl min x

/-- The `sortedDays` computation (line 1252): day groups sorted
descending by date, capped to the 10 most recent, each mapped to its
table row with count, mean, min and max (lines 1292-1304). -/
def fallbackRows (pts : List DataPoint) : List DayRow :=
  (((dailyData pts).insertionSort byDateDesc).take 10).map (fun g =>
    { date := g.1, count := g.2.length, dayAvg := g.2.sum / (g.2.length : ℚ),
      dayHigh := qmax g.2, dayLow := qmin g.2 })

/-- The data computed by `renderFallbackChart` (lines 1233-1320): the
overall stats guarded by `allPrices.length > 0` (lines 1256-1258, each
yielding the literal 0 on empty input) and the daily table. -/
def renderFallbackView (pts : List DataPoint) : FallbackView :=
  let allPrices := pts.map (fun p => p.y)
  { avg := if allPrices.length > 0 then allPrices.sum / (allPrices.length : ℚ) else 0,
    high := if allPrices.length > 0 then qmax allPrices else 0,
    low := if allPrices.length > 0 then qmin allPrices else 0,
    totalSales := allPrices.length,
    rows := fallbackRows pts }

/-- Concrete input used by several witnesses: two jumbo sale points. -/
def witnessPoints : List DataPoint :=
  [⟨1000, 100, "jumbo", "2024-01-01"⟩, ⟨2000, 110, "jumbo", "2024-01-01"⟩]

/- ======================================================================
   Theorems
   ====================================================================== -/

/-- Sanity check: the worked example of the spec (three points, overlay
mode) yields two series — jumbo with 2 candles at synthetic seconds 1
and 3602 (3601 seconds apart), breakers_delight with 1 candle at
offset 301. -/
theorem overlaySeries_example :
    (overlaySeries [⟨1000, 100, "jumbo", "d"⟩, ⟨1000, 200, "breakers_delight", "d"⟩,
        ⟨2000, 110, "jumbo", "d"⟩]).map (fun g => (g.1, g.2.map (fun c => c.time))) =
      [("jumbo", [1, 3602]), ("breakers_delight", [301])] := by decide

/-- C1: the retry loop does NOT terminate immediately on a 4xx status.
Both the 4xx and the 5xx branch throw the same `HTTP <status>` error
into the same catch block, which retries every failure alike.  An
endpoint answering HTTP 404 on every attempt therefore consumes all
3 attempts (2 additional ones) with backoff delays 500 and 1000 ms —
contradicting the code's own comment at line 1035 and the spec.  The
5xx half of the claim does hold: HTTP 503 is retried up to MAX_RETRIES
additional attempts with the same strictly increasing delays. -/
theorem fetchAPI_clientError_retried :
    (fetchAPIAttempts (fun _ => AttemptOutcome.httpError 404) MAX_RETRIES).attemptsUsed = 3 ∧
    (fetchAPIAttempts (fun _ => AttemptOutcome.httpError 404) MAX_RETRIES).delays = [500, 1000] ∧
    (fetchAPIAttempts (fun _ => AttemptOutcome.httpError 404) MAX_RETRIES).result =
      FetchResult.error (FetchError.http 404) ∧
    (fetchAPIAttempts (fun _ => AttemptOutcome.httpError 503) MAX_RETRIES).attemptsUsed = 3 ∧
    (fetchAPIAttempts (fun _ => AttemptOutcome.httpError 503) MAX_RETRIES).delays = [500, 1000] ∧
    backoffDelay 0 < backoffDelay 1 := by decide

/-- C3 counterexample: on a network failure for an API-path GET, the
synthesized body is `{success:false, error:"You are offline"}`, not
`{success:false, error:"offline"}` as the claim states. -/
theorem swOffline_literal_body_refuted :
    swHandleFetch "GET" "/api/summary" none none ≠
      SWFetchOutcome.offlineFallback { success := false, error := "offline" } := by decide

/-- C3 (amended): when an intercepted GET request to an API path fails
at the network, the service worker returns a synthesized response with
body `{success:false, error:"You are offline"}` instead of propagating
the transport failure — regardless of the asset cache contents. -/
theorem swOffline_synthesized_body (pathname : String) (cached : Option NetResponse)
    (h : isApiPath pathname = true) :
    swHandleFetch "GET" pathname none cached =
      SWFetchOutcome.offlineFallback { success := false, error := "You are offline" } := by
  simp [swHandleFetch, h]

/-- Witness for the amended C3 theorem at the summary endpoint. -/
theorem swOffline_synthesized_body_witness :
    isApiPath "/api/summary" = true ∧
    swHandleFetch "GET" "/api/summary" none none =
      SWFetchOutcome.offlineFallback { success := false, error := "You are offline" } :=
  ⟨by decide, swOffline_synthesized_body "/api/summary" none (by decide)⟩

/-- C6: for a `fetchAPI` call without cache bypass, a cached entry whose
age is strictly below the 30000 ms TTL is returned as is with no network
activity and no state change; an entry at or past the TTL is evicted on
lookup and — when no request is pending for the key — exactly one new
request attempt sequence is started and registered as pending. -/
theorem fetchAPI_cache_policy (st : FetchState) (key : String) (now : Int) (e : CacheEntry)
    (hlook : st.cache key = some e) :
    (now - e.timestamp < cacheTimeout →
        fetchAPILookup st key false now = (FetchDecision.cachedData e.data, st)) ∧
    (cacheTimeout ≤ now - e.timestamp → st.pending key = false →
        (fetchAPILookup st key false now).1 = FetchDecision.startRequest ∧
        ((fetchAPILookup st key false now).2).cache key = none ∧
        ((fetchAPILookup st key false now).2).pending key = true) := by
  constructor
  · intro hfresh
    simp [fetchAPILookup, hlook, hfresh]
  · intro hstale hpend
    have hnot : ¬(now - e.timestamp < cacheTimeout) := not_lt.mpr hstale
    simp [fetchAPILookup, hlook, hnot, hpend]

/-- Witness for C6: a fresh entry (age 10000 ms) is served from cache. -/
theorem fetchAPI_cache_policy_witness :
    ((10000 : Int) - 0 < cacheTimeout) ∧
    fetchAPILookup ⟨fun k => if k = "/summary" then some ⟨7, 0⟩ else none, fun _ => false⟩
        "/summary" false 10000 =
      (FetchDecision.cachedData 7,
        ⟨fun k => if k = "/summary" then some ⟨7, 0⟩ else none, fun _ => false⟩) :=
  ⟨by decide,
    (fetchAPI_cache_policy ⟨fun k => if k = "/summary" then some ⟨7, 0⟩ else none,
        fun _ => false⟩ "/summary" 10000 ⟨7, 0⟩ rfl).1 (by decide)⟩

/-- C8: if the injected charting capability is undefined, `initChart`
sets fallback mode immediately, makes no chart-capability call and
returns false, and every `updateCandlestickChart` data update routes to
the fallback summary path with zero chart-handle calls. -/
theorem lib_unavailable_fallback (ct rt : Bool) (st : ChartState) (fa : Option Nat)
    (variant : String) (pts : List DataPoint) :
    (initChart false ct st).st.chartFallbackMode = true ∧
    (initChart false ct st).calls = [] ∧
    (initChart false ct st).ok = false ∧
    (updateCandlestickChart false ct rt fa variant pts st).calls = [] ∧
    (updateCandlestickChart false ct rt fa variant pts st).usedFallback = true := by
  refine ⟨?_, ?_, ?_, ?_, ?_⟩ <;> simp [initChart, updateCandlestickChart]

/-- C10: on an empty `data_points` array the fallback summary view is
well defined: the length guards make Average, High and Low the literal
0 (instead of 0/0 or an extremum over no values) and the daily table has
no rows. -/
theorem renderFallback_empty_safe :
    renderFallbackView [] =
      { avg := 0, high := 0, low := 0, totalSales := 0, rows := [] } := rfl

/-- Helper: once a request promise `r` is pending for the key, further
calls only attach to it: the pending entry, the issued list and the id
counter are unchanged, every caller is recorded, and every recorded
caller either predates the burst or awaits `r`. -/
theorem runCalls_pending (r : Nat) :
    ∀ (cs : List Nat) (st : CoalesceState), st.pendingRequest = some r →
      (runCalls cs st).pendingRequest = some r ∧
      (runCalls cs st).issued = st.issued ∧
      (runCalls cs st).callers.length = cs.length + st.callers.length ∧
      ∀ pr ∈ (runCalls cs st).callers, pr ∈ st.callers ∨ pr.2 = r := by
  intro cs
  induction cs with
  | nil =>
    intro st h
    exact ⟨h, rfl, by simp [runCalls], fun pr hpr => Or.inl hpr⟩
  | cons c cs ih =>
    intro st h
    have hstep : coalesceCall c st = { st with callers := (c, r) :: st.callers } := by
      simp [coalesceCall, h]
    have hrun : runCalls (c :: cs) st = runCalls cs (coalesceCall c st) := by
      simp [runCalls]
    rw [hrun, hstep]
    obtain ⟨h1, h2, h3, h4⟩ := ih { st with callers := (c, r) :: st.callers } h
    refine ⟨h1, h2, ?_, ?_⟩
    · simp at h3
      simp [h3]
      omega
    · intro pr hpr
      rcases h4 pr hpr with hin | hr
      · rcases List.mem_cons.mp hin with hhd | htl
        · exact Or.inr (by rw [hhd])
        · exact Or.inl htl
      · exact Or.inr hr

/-- C2: for a fixed key with no fresh cache entry, a burst of K
concurrent `fetchAPI` calls issues exactly one request attempt sequence
(request id 0); every one of the K callers is recorded as awaiting that
same request — hence all receive the payload or error with which it
settles — and settling removes the pending-map entry.  At every instant
of the burst the pending map holds at most this one request. -/
theorem coalescing_single_flight (cs : List Nat) (hne : cs ≠ []) :
    (runCalls cs coalesceInit).issued = [0] ∧
    (runCalls cs coalesceInit).callers.length = cs.length ∧
    (∀ pr ∈ (runCalls cs coalesceInit).callers, pr.2 = 0) ∧
    (coalesceSettle (runCalls cs coalesceInit)).pendingRequest = none := by
  cases cs with
  | nil => exact absurd rfl hne
  | cons c cs =>
    have hstep : coalesceCall c coalesceInit = ⟨some 0, 1, [0], [(c, 0)]⟩ := by
      simp [coalesceCall, coalesceInit]
    have hrun : runCalls (c :: cs) coalesceInit =
        runCalls cs (⟨some 0, 1, [0], [(c, 0)]⟩ : CoalesceState) := by
      simp [runCalls, ← hstep]
    obtain ⟨h1, h2, h3, h4⟩ :=
      runCalls_pending 0 cs (⟨some 0, 1, [0], [(c, 0)]⟩ : CoalesceState) rfl
    rw [hrun]
    refine ⟨h2, ?_, ?_, ?_⟩
    · simp at h3
      simp [h3]
    · intro pr hpr
      rcases h4 pr hpr with hin | hr
      · simp at hin
        rw [hin]
      · exact hr
    · simp [coalesceSettle]

/-- Witness for C2: a burst of three callers. -/
theorem coalescing_single_flight_witness :
    ([1, 2, 3] : List Nat) ≠ [] ∧
    (runCalls [1, 2, 3] coalesceInit).issued = [0] ∧
    (runCalls [1, 2, 3] coalesceInit).callers.length = 3 :=
  ⟨by decide, (coalescing_single_flight [1, 2, 3] (by decide)).1,
    (coalescing_single_flight [1, 2, 3] (by decide)).2.1⟩

/-- Helper: the j-th candle of `candleDataFrom` starting at index i is
built from the j-th point with index i + j. -/
theorem candleDataFrom_getElem (vf : ℚ) (off : Int) :
    ∀ (ps : List DataPoint) (i j : Nat),
      (candleDataFrom vf off i ps)[j]? = ps[j]?.map (fun p => mkCandle vf off (i + j) p) := by
  intro ps
  induction ps with
  | nil => intro i j; simp [candleDataFrom]
  | cons p ps ih =>
    intro i j
    cases j with
    | zero => simp [candleDataFrom]
    | succ j =>
      have harith : i + 1 + j = i + (j + 1) := by omega
      simp [candleDataFrom, ih (i + 1) j, harith]

/-- Helper: monotonicity of `Math.floor(x / 1000)` on integers. -/
theorem fdiv1000_mono {a b : Int} (h : a ≤ b) : a.fdiv 1000 ≤ b.fdiv 1000 := by
  rw [Int.fdiv_eq_ediv _ (by decide), Int.fdiv_eq_ediv _ (by decide)]
  exact Int.ediv_le_ediv (by decide) h

/-- Helper: consecutive candles of a timestamp-sorted group have
strictly increasing synthetic times — the `index * 3600` term dominates
any same-category timestamp jitter. -/
theorem mkCandle_time_lt (vf : ℚ) (off : Int) (i : Nat) (p q : DataPoint) (h : p.x ≤ q.x) :
    (mkCandle vf off i p).time < (mkCandle vf off (i + 1) q).time := by
  have hm : p.x.fdiv 1000 ≤ q.x.fdiv 1000 := fdiv1000_mono h
  simp only [mkCandle]
  push_cast
  linarith

/-- Helper: candle times along a sorted group form a strictly
increasing chain. -/
theorem candleDataFrom_time_chain (vf : ℚ) (off : Int) :
    ∀ (ps : List DataPoint) (i : Nat), ps.Sorted byTimestamp →
      List.Chain' (fun a b => a.time < b.time) (candleDataFrom vf off i ps) := by
  intro ps
  induction ps with
  | nil => intro i _; simp [candleDataFrom]
  | cons p ps ih =>
    intro i hs
    rw [List.sorted_cons] at hs
    cases ps with
    | nil => simp [candleDataFrom]
    | cons q rest =>
      have h1 : p.x ≤ q.x := hs.1 q (List.mem_cons_self q rest)
      have h2 := ih (i + 1) hs.2
      simp only [candleDataFrom] at h2 ⊢
      rw [List.chain'_cons]
      exact ⟨mkCandle_time_lt vf off i p q h1, h2⟩

/-- Helper: what membership in the overlay output means: the key is one
of the fixed category labels, its group is non-empty, and the candles
are exactly the synthesis of the sorted group. -/
theorem overlaySeries_mem {pts : List DataPoint} {key : String} {cands : List Candle}
    (h : (key, cands) ∈ overlaySeries pts) :
    key ∈ variantKeys ∧ groupPoints pts key ≠ [] ∧
      cands = candleData overlayVariance (variantOffset key) (sortByX (groupPoints pts key)) := by
  unfold overlaySeries at h
  rw [List.mem_filterMap] at h
  obtain ⟨a, ha, hfa⟩ := h
  by_cases hlen : (groupPoints pts a).length = 0
  · simp [hlen] at hfa
  · simp only [hlen, if_false] at hfa
    obtain ⟨rfl, h2⟩ := Prod.mk.injEq .. ▸ Option.some.injEq .. ▸ hfa
    rw [← h2]
    exact ⟨ha, fun hnil => hlen (by rw [hnil]; rfl), rfl⟩

/-- C4: in overlay mode, after partitioning by category and sorting each
category ascending by original timestamp, the candle at 0-based index i
of a category carries synthetic time
`floor(x / 1000) + i * 3600 + categoryOffset` (offsets 0 / 300 / 600),
and consequently the synthetic times within any one category's series
are strictly increasing. -/
theorem overlay_synthetic_time (pts : List DataPoint) (key : String) (cands : List Candle)
    (h : (key, cands) ∈ overlaySeries pts) :
    (∀ (i : Nat) (p : DataPoint), (sortByX (groupPoints pts key))[i]? = some p →
        ∃ c, cands[i]? = some c ∧
          c.time = p.x.fdiv 1000 + (i : Int) * 3600 + variantOffset key) ∧
    List.Chain' (fun a b => a.time < b.time) cands := by
  obtain ⟨hk, hne, rfl⟩ := overlaySeries_mem h
  constructor
  · intro i p hp
    refine ⟨mkCandle overlayVariance (variantOffset key) i p, ?_, rfl⟩
    rw [candleData, candleDataFrom_getElem, hp]
    simp
  · exact candleDataFrom_time_chain _ _ _ 0
      (List.sorted_insertionSort byTimestamp (groupPoints pts key))

/-- Witness for C4: on two jumbo points 1000 ms apart the jumbo series
has strictly increasing times. -/
theorem overlay_synthetic_time_witness :
    List.Chain' (fun a b => a.time < b.time)
      (candleData overlayVariance (variantOffset "jumbo")
        (sortByX (groupPoints witnessPoints "jumbo"))) :=
  (overlay_synthetic_time witnessPoints "jumbo"
    (candleData overlayVariance (variantOffset "jumbo")
      (sortByX (groupPoints witnessPoints "jumbo")))
    (by simp [overlaySeries, variantKeys, groupPoints, witnessPoints])).2

/-- C7: for a point with positive price and either of the program's
variance fractions, the synthesized candle has
`open = low = price - variance` and `close = high = price + variance`
(`variance = price * fraction`), so `high ≥ open ≥ low` and
`high ≥ close ≥ low` hold by construction. -/
theorem candle_ohlc_bounds (vf : ℚ) (off : Int) (i : Nat) (p : DataPoint)
    (hvf : vf = overlayVariance ∨ vf = singleVariance) (hp : 0 < p.y) :
    (mkCandle vf off i p).«open» = p.y - p.y * vf ∧
    (mkCandle vf off i p).low = p.y - p.y * vf ∧
    (mkCandle vf off i p).close = p.y + p.y * vf ∧
    (mkCandle vf off i p).high = p.y + p.y * vf ∧
    (mkCandle vf off i p).low ≤ (mkCandle vf off i p).«open» ∧
    (mkCandle vf off i p).«open» ≤ (mkCandle vf off i p).high ∧
    (mkCandle vf off i p).low ≤ (mkCandle vf off i p).close ∧
    (mkCandle vf off i p).close ≤ (mkCandle vf off i p).high := by
  have hv : 0 < p.y * vf := by
    have hvfpos : 0 < vf := by
      rcases hvf with rfl | rfl <;> norm_num [overlayVariance, singleVariance]
    positivity
  refine ⟨rfl, rfl, rfl, rfl, ?_, ?_, ?_, ?_⟩ <;> simp only [mkCandle] <;> linarith

/-- Witness for C7 on a 100-priced point with the overlay fraction. -/
theorem candle_ohlc_bounds_witness :
    (overlayVariance = overlayVariance ∨ overlayVariance = singleVariance) ∧
    (0 : ℚ) < 100 ∧
    (mkCandle overlayVariance 0 0 ⟨1000, 100, "jumbo", "d"⟩).«open» ≤
      (mkCandle overlayVariance 0 0 ⟨1000, 100, "jumbo", "d"⟩).high :=
  ⟨Or.inl rfl, by norm_num,
    (candle_ohlc_bounds overlayVariance 0 0 ⟨1000, 100, "jumbo", "d"⟩ (Or.inl rfl)
      (by norm_num)).2.2.2.2.2.1⟩

/-- Helper: filtering through a weaker predicate first does not change
the result of a filter. -/
theorem filter_filter_of_imp {α : Type} (p q : α → Bool) (l : List α)
    (himp : ∀ a, p a = true → q a = true) : (l.filter q).filter p = l.filter p := by
  induction l with
  | nil => rfl
  | cons a l ih =>
    by_cases hqa : q a = true
    · rw [List.filter_cons_of_pos hqa]
      by_cases hpa : p a = true
      · rw [List.filter_cons_of_pos hpa, List.filter_cons_of_pos hpa, ih]
      · rw [List.filter_cons_of_neg hpa, List.filter_cons_of_neg hpa, ih]
    · have hpa : ¬p a = true := fun hp => hqa (himp a hp)
      rw [List.filter_cons_of_neg hqa, List.filter_cons_of_neg hpa, ih]

/-- Helper: restricting the input to points with known category labels
does not change any category group. -/
theorem groupPoints_filter_known (pts : List DataPoint) (key : String)
    (hk : key ∈ variantKeys) :
    groupPoints (pts.filter (fun p => decide (p.variant ∈ variantKeys))) key =
      groupPoints pts key := by
  unfold groupPoints
  exact filter_filter_of_imp _ _ pts (fun a ha => by
    have : a.variant = key := by simpa using ha
    simpa [this] using hk)

/-- C9 counterexample: a point labelled "toString" — not one of the
known categories — is NOT silently dropped at the grouping step:
`variantGroups["toString"]` is the truthy inherited Object.prototype
method, so `.push` on it throws a TypeError and the overlay update
aborts into the fallback path (with no series call at all), even though
no chart call failed. -/
theorem unknown_label_not_dropped :
    groupingThrows [⟨1000, 50, "toString", "d"⟩] = true ∧
    (updateCandlestickChart true false false none "all" [⟨1000, 50, "toString", "d"⟩]
        ⟨false, true, 0⟩).usedFallback = true ∧
    (updateCandlestickChart true false false none "all" [⟨1000, 50, "toString", "d"⟩]
        ⟨false, true, 0⟩).st.chartFallbackMode = true ∧
    (updateCandlestickChart true false false none "all" [⟨1000, 50, "toString", "d"⟩]
        ⟨false, true, 0⟩).calls = [] := by decide

/-- C9 (amended): in overlay mode a category with zero points produces
no series entry at all; every emitted series belongs to a known category
that has at least one input point (so categories absent from the input
never appear); points whose unknown label does not name an inherited
Object.prototype property are silently dropped at the grouping step
with no effect on the output; but a label naming such an inherited
property makes the grouping loop throw a TypeError, which aborts the
render into the fallback path. -/
theorem overlay_group_edge_cases (pts : List DataPoint) :
    (∀ key, groupPoints pts key = [] → ∀ cands, (key, cands) ∉ overlaySeries pts) ∧
    (∀ key cands, (key, cands) ∈ overlaySeries pts →
        key ∈ variantKeys ∧ ∃ p ∈ pts, p.variant = key) ∧
    (groupingThrows pts = false →
        overlaySeries (pts.filter (fun p => decide (p.variant ∈ variantKeys))) =
          overlaySeries pts) ∧
    (groupingThrows pts = true →
        ∀ (ct rt : Bool) (fa : Option Nat) (st : ChartState),
          st.chartFallbackMode = false → st.hasChart = true →
          (updateCandlestickChart true ct rt fa "all" pts st).usedFallback = true ∧
          (updateCandlestickChart true ct rt fa "all" pts st).st.chartFallbackMode
            = true) := by
  refine ⟨?_, ?_, ?_, ?_⟩
  · intro key hempty cands hmem
    exact (overlaySeries_mem hmem).2.1 hempty
  · intro key cands hmem
    obtain ⟨hk, hne, _⟩ := overlaySeries_mem hmem
    obtain ⟨p, hp⟩ := List.exists_mem_of_ne_nil _ hne
    rw [groupPoints, List.mem_filter] at hp
    exact ⟨hk, p, hp.1, by simpa using hp.2⟩
  · intro _
    have h1 := groupPoints_filter_known pts "jumbo" (by simp [variantKeys])
    have h2 := groupPoints_filter_known pts "breakers_delight" (by simp [variantKeys])
    have h3 := groupPoints_filter_known pts "hobby" (by simp [variantKeys])
    simp only [overlaySeries, variantKeys, List.filterMap_cons, List.filterMap_nil]
    simp only [variantKeys] at h1 h2 h3
    rw [h1, h2, h3]
  · intro hthrow ct rt fa st hMode hChart
    constructor <;>
      simp [updateCandlestickChart, hMode, hChart, hthrow, renderFallbackMode]

/-- Witness for C9: on an input whose unknown label "vintage" is not an
inherited prototype name, the grouping does not throw and filtering that
label out leaves the overlay output unchanged. -/
theorem overlay_group_edge_cases_witness :
    groupingThrows (⟨1000, 50, "vintage", "d"⟩ :: witnessPoints) = false ∧
    overlaySeries ((⟨1000, 50, "vintage", "d"⟩ :: witnessPoints).filter
        (fun p => decide (p.variant ∈ variantKeys))) =
      overlaySeries (⟨1000, 50, "vintage", "d"⟩ :: witnessPoints) :=
  ⟨by decide,
    (overlay_group_edge_cases (⟨1000, 50, "vintage", "d"⟩ :: witnessPoints)).2.2.1
      (by decide)⟩

/-- Helper: once `state.chartFallbackMode` is set, every data update
takes the guard at line 1417: it renders the fallback summary, keeps
fallback mode set, and performs zero chart-handle calls. -/
theorem update_in_fallback_mode (libA ct rt : Bool) (fa : Option Nat) (v : String)
    (pts : List DataPoint) (st : ChartState) (h : st.chartFallbackMode = true) :
    updateCandlestickChart libA ct rt fa v pts st = ⟨renderFallbackMode st, [], true⟩ := by
  simp [updateCandlestickChart, h]

/-- C5 counterexample: a `removeSeries` throw during the sweep is
swallowed by the inner catch at lines 1434-1436: the update completes in
Live mode, Fallback is NOT entered, and further chart-handle calls
(`addSeries`, `setData`, `fitContent`) are made in that very update —
refuting the claim for removeSeries throws. -/
theorem removeSeries_throw_stays_live :
    (updateCandlestickChart true false true none "all" witnessPoints
        ⟨false, true, 1⟩).usedFallback = false ∧
    (updateCandlestickChart true false true none "all" witnessPoints
        ⟨false, true, 1⟩).st.chartFallbackMode = false ∧
    (updateCandlestickChart true false true none "all" witnessPoints
        ⟨false, true, 1⟩).calls =
      [ChartCall.removeSeries, ChartCall.addSeries, ChartCall.setData,
        ChartCall.fitContent] := by decide

/-- C5 (amended): the per-series `removeSeries` calls are individually
guarded (lines 1434-1436), so a `removeSeries` throw is swallowed and
the update continues in Live mode; but if any non-swallowed call of the
render try block throws during a data update made in live mode (chart
instance present) — and likewise when the overlay grouping loop raises —
the exception is caught inside `updateCandlestickChart` (the function is
total, never re-throwing to the caller), the data is routed to the
fallback summary, fallback mode is latched, and every subsequent data
update for the rest of the session routes to the fallback summary path
and attempts no chart-handle call. -/
theorem render_throw_latches_fallback (ct rt : Bool) (n : Nat) (variant : String)
    (pts : List DataPoint) (st : ChartState)
    (hMode : st.chartFallbackMode = false) (hChart : st.hasChart = true) :
    (updateCandlestickChart true ct rt (some n) variant pts st).usedFallback = true ∧
    (updateCandlestickChart true ct rt (some n) variant pts st).st.chartFallbackMode = true ∧
    ∀ (ct2 rt2 : Bool) (fa2 : Option Nat) (v2 : String) (pts2 : List DataPoint),
      (updateCandlestickChart true ct2 rt2 fa2 v2 pts2
          (updateCandlestickChart true ct rt (some n) variant pts st).st).calls = [] ∧
      (updateCandlestickChart true ct2 rt2 fa2 v2 pts2
          (updateCandlestickChart true ct rt (some n) variant pts st).st).usedFallback
        = true := by
  have hmain : (updateCandlestickChart true ct rt (some n) variant pts st).usedFallback
        = true ∧
      (updateCandlestickChart true ct rt (some n) variant pts st).st.chartFallbackMode
        = true := by
    by_cases hg : (variant == "all" && groupingThrows pts) = true <;>
      constructor <;>
        simp [updateCandlestickChart, hMode, hChart, hg, renderFallbackMode]
  refine ⟨hmain.1, hmain.2, ?_⟩
  intro ct2 rt2 fa2 v2 pts2
  rw [update_in_fallback_mode true ct2 rt2 fa2 v2 pts2 _ hmain.2]
  exact ⟨rfl, rfl⟩

/-- Witness for C5: a throwing overlay update from the live state
latches fallback mode. -/
theorem render_throw_latches_fallback_witness :
    ((⟨false, true, 0⟩ : ChartState).chartFallbackMode = false) ∧
    ((⟨false, true, 0⟩ : ChartState).hasChart = true) ∧
    (updateCandlestickChart true false false (some 0) "all" []
        ⟨false, true, 0⟩).st.chartFallbackMode = true :=
  ⟨rfl, rfl,
    (render_throw_latches_fallback false false 0 "all" [] ⟨false, true, 0⟩ rfl rfl).2.1⟩
